import Mathlib

/-!
# Verification of the FinTech Monitor API (`src/main.py`)

A shallow embedding of the four read-only endpoint handlers of the backend
(`/api/bond-spread`, `/api/fx`, `/api/commodities`, `/api/all`) together with
the provider-fetch helper `fetch_ticker_data`.

Modelling conventions:
* Numeric fields of provider bars are exact rationals (`ℚ`); Python's
  `round(x, n)` is modelled as exact decimal rounding with half-to-even
  tie-breaking (`roundTo`), i.e. IEEE-754 representation error is abstracted
  away and arithmetic is exact.
* The upstream provider (`yfinance`) is an opaque parameter of type
  `Provider`: for a ticker and a period it either fails with an exception
  message (`Except.error msg`, the `str` of the raised exception) or returns
  the list of history bars in index order (`Except.ok bars`).  A bar's date
  is modelled as the already-formatted `"%Y-%m-%d"` string of its timestamp.
* A raised `HTTPException(status_code, detail)` is the value
  `Except.error ⟨status_code, detail⟩`; a normal JSON response is
  `Except.ok` of an envelope structure.  The wall-clock `last_update` /
  `timestamp` metadata fields are omitted (they carry no verified content).
-/

/-- One daily OHLC bar as returned by the provider for one ticker.
`date` is the `"%Y-%m-%d"`-formatted timestamp used as the row key. -/
structure Bar where
  date : String
  «open» : ℚ
  high : ℚ
  low : ℚ
  close : ℚ
  deriving DecidableEq, Repr

/-- The upstream data provider: ticker ↦ period ↦ failure message or bars. -/
abbrev Provider := String → String → Except String (List Bar)

/-- Python-style `round` to an integer: round half to even (banker's
rounding), as `round` does on exact decimal values. -/
def rhe (x : ℚ) : ℤ :=
  if x - ⌊x⌋ = 1 / 2 then (if 2 ∣ ⌊x⌋ then ⌊x⌋ else ⌊x⌋ + 1) else round x

/-- Python's `round(x, prec)`: round to `prec` decimal places, ties to even. -/
def roundTo (prec : ℕ) (x : ℚ) : ℚ :=
  (rhe (x * 10 ^ prec) : ℚ) / 10 ^ prec

/-- The ticker-symbol table `TICKERS` of `src/main.py`. -/
def TICKERS : String → String
  | "us10y" => "^TNX"
  | "jpy_fx" => "JPY=X"
  | "gold" => "GC=F"
  | "oil" => "CL=F"
  | _ => ""

/-- `fetch_ticker_data` (src/main.py:37): call the provider; an empty history
raises `ValueError(f"No data for {ticker}")`; provider exceptions are
re-raised unchanged after logging. -/
def fetch_ticker_data (provider : Provider) (ticker : String)
    (period : String := "5d") : Except String (List Bar) :=
  match provider ticker period with
  | .error e => .error e
  | .ok hist =>
      if hist.isEmpty then .error ("No data for " ++ ticker) else .ok hist

/-- A raised `HTTPException`: status code and `detail` message. -/
structure HTTPError where
  status : ℕ
  detail : String
  deriving DecidableEq, Repr

/-- One row of `/api/bond-spread` data. -/
structure SpreadRow where
  date : String
  us10y : ℚ
  jp10y : ℚ
  spread : ℚ
  deriving DecidableEq, Repr

/-- One row of `/api/fx` data. -/
structure FxRow where
  date : String
  rate : ℚ
  high : ℚ
  low : ℚ
  deriving DecidableEq, Repr

/-- One row of a `/api/commodities` list. -/
structure CommodityRow where
  date : String
  price : ℚ
  change : ℚ
  deriving DecidableEq, Repr

/-- `/api/bond-spread` response envelope (`last_update` omitted). -/
structure BondSpreadResponse where
  success : Bool
  data : List SpreadRow
  period : String
  data_points : ℕ
  deriving DecidableEq, Repr

/-- `/api/fx` response envelope (`last_update` omitted). -/
structure FxResponse where
  success : Bool
  data : List FxRow
  pair : String
  period : String
  deriving DecidableEq, Repr

/-- The `data` object of `/api/commodities`: the `commodities` dict. -/
structure CommoditiesData where
  gold : List CommodityRow
  oil : List CommodityRow
  deriving DecidableEq, Repr

/-- `/api/commodities` response envelope (`last_update` omitted). -/
structure CommoditiesResponse where
  success : Bool
  data : CommoditiesData
  period : String
  deriving DecidableEq, Repr

/-- The `data` object of `/api/all`. -/
structure AllData where
  bondSpread : List SpreadRow
  fx : List FxRow
  commodities : CommoditiesData
  deriving DecidableEq, Repr

/-- `/api/all` response envelope (`last_update` omitted). -/
structure AllResponse where
  success : Bool
  data : AllData
  period : String
  deriving DecidableEq, Repr

/-- `sorted(key=lambda x: x['date'])` on a row list, via the stable
insertion sort (Python's `sorted` is a stable ascending sort). -/
def sortByDate {α : Type} (key : α → String) (l : List α) : List α :=
  List.insertionSort (fun a b => key a ≤ key b) l

/-- The loop body of `get_bond_spread` (src/main.py:92): one spread row from
one `^TNX` bar, given the placeholder Japanese yield `jp_yield`. -/
def spreadRowOf (jp_yield : ℚ) (row : Bar) : SpreadRow :=
  let us_yield := row.close
  SpreadRow.mk row.date (roundTo 4 us_yield) (roundTo 4 jp_yield)
    (roundTo 4 (us_yield - jp_yield))

/-- `get_bond_spread` (src/main.py:79): fetch `^TNX`, use the fixed constant
`jp_yield = 1.0` for the Japanese yield, shape the rows, sort by date.  Any
exception becomes `HTTPException(500, str(e))`. -/
def get_bond_spread (provider : Provider) (period : String := "5d") :
    Except HTTPError BondSpreadResponse :=
  match fetch_ticker_data provider (TICKERS "us10y") period with
  | .error e => .error ⟨500, e⟩
  | .ok us_data =>
      let jp_yield : ℚ := 1
      let spread_data := us_data.map (spreadRowOf jp_yield)
      .ok ⟨true, sortByDate SpreadRow.date spread_data, period,
        spread_data.length⟩

/-- The loop body of `get_fx_rate` (src/main.py:125): one FX row from one
`JPY=X` bar. -/
def fxRowOf (row : Bar) : FxRow :=
  FxRow.mk row.date (roundTo 4 row.close) (roundTo 4 row.high)
    (roundTo 4 row.low)

/-- `get_fx_rate` (src/main.py:116): fetch `JPY=X`, shape the rows, sort by
date.  Any exception becomes `HTTPException(500, str(e))`. -/
def get_fx_rate (provider : Provider) (period : String := "5d") :
    Except HTTPError FxResponse :=
  match fetch_ticker_data provider (TICKERS "jpy_fx") period with
  | .error e => .error ⟨500, e⟩
  | .ok hist =>
      let fx_data := hist.map fxRowOf
      .ok ⟨true, sortByDate FxRow.date fx_data, "USD/JPY", period⟩

/-- The commodity row shaping shared by the gold and oil blocks of
`get_commodities` (src/main.py:161,177). -/
def commodityRowOf (row : Bar) : CommodityRow :=
  CommodityRow.mk row.date (roundTo 2 row.close)
    (roundTo 2 (row.close - row.«open»))

/-- `get_commodities` (src/main.py:148): fetch gold and oil each inside its
own `try`; a failing ticker contributes `[]` instead of aborting.  The outer
`try` never fires in this model (the shaping code cannot raise). -/
def get_commodities (provider : Provider) (period : String := "5d") :
    Except HTTPError CommoditiesResponse :=
  let gold : List CommodityRow :=
    match fetch_ticker_data provider (TICKERS "gold") period with
    | .error _ => []
    | .ok gold_hist => sortByDate CommodityRow.date (gold_hist.map commodityRowOf)
  let oil : List CommodityRow :=
    match fetch_ticker_data provider (TICKERS "oil") period with
    | .error _ => []
    | .ok oil_hist => sortByDate CommodityRow.date (oil_hist.map commodityRowOf)
  .ok ⟨true, ⟨gold, oil⟩, period⟩

/-- `str(e)` of a caught `HTTPException` (Starlette yields
`f"{status_code}: {detail}"`). -/
def httpErrorStr (e : HTTPError) : String :=
  toString e.status ++ ": " ++ e.detail

/-- `get_all_data` (src/main.py:200): run the three sub-handlers in order and
merge their `data` fields; any raised `HTTPException e` is caught and
re-wrapped as `HTTPException(500, str(e))`. -/
def get_all_data (provider : Provider) (period : String := "5d") :
    Except HTTPError AllResponse :=
  match get_bond_spread provider period with
  | .error e => .error ⟨500, httpErrorStr e⟩
  | .ok bond_spread_result =>
      match get_fx_rate provider period with
      | .error e => .error ⟨500, httpErrorStr e⟩
      | .ok fx_result =>
          match get_commodities provider period with
          | .error e => .error ⟨500, httpErrorStr e⟩
          | .ok commodities_result =>
              .ok ⟨true,
                ⟨bond_spread_result.data, fx_result.data,
                  commodities_result.data⟩, period⟩

/-! ## Convenience equations for the ticker table -/

theorem TICKERS_us10y : TICKERS "us10y" = "^TNX" := rfl

theorem TICKERS_jpy_fx : TICKERS "jpy_fx" = "JPY=X" := rfl

theorem TICKERS_gold : TICKERS "gold" = "GC=F" := rfl

theorem TICKERS_oil : TICKERS "oil" = "CL=F" := rfl

/-! ## Arithmetic facts about the rounding model -/

theorem rhe_intCast (n : ℤ) : rhe (n : ℚ) = n := by
  unfold rhe
  rw [Int.floor_intCast, sub_self]
  norm_num

theorem rhe_add_int_even (x : ℚ) (n : ℤ) (hn : 2 ∣ n) :
    rhe (x + n) = rhe x + n := by
  unfold rhe
  rw [Int.floor_add_int]
  have h1 : x + (n : ℚ) - ((⌊x⌋ + n : ℤ) : ℚ) = x - ⌊x⌋ := by
    push_cast; ring
  rw [h1]
  by_cases h : x - (⌊x⌋ : ℚ) = 1 / 2
  · rw [if_pos h, if_pos h]
    have hiff : (2 ∣ ⌊x⌋ + n) ↔ 2 ∣ ⌊x⌋ := by
      rw [add_comm, dvd_add_right hn]
    by_cases he : 2 ∣ ⌊x⌋
    · rw [if_pos he, if_pos (hiff.mpr he)]
    · rw [if_neg he, if_neg (fun hc => he (hiff.mp hc))]
      ring
  · rw [if_neg h, if_neg h, round_add_int]

theorem roundTo_int_div (p : ℕ) (m : ℤ) :
    roundTo p ((m : ℚ) / 10 ^ p) = (m : ℚ) / 10 ^ p := by
  unfold roundTo
  rw [div_mul_cancel₀ _ (by positivity : (10 : ℚ) ^ p ≠ 0), rhe_intCast]

theorem roundTo_idem (p : ℕ) (x : ℚ) :
    roundTo p (roundTo p x) = roundTo p x :=
  roundTo_int_div p (rhe (x * 10 ^ p))

theorem roundTo_four_one : roundTo 4 (1 : ℚ) = 1 := by
  have h : (1 : ℚ) * 10 ^ 4 = ((10000 : ℤ) : ℚ) := by norm_num
  unfold roundTo
  rw [h, rhe_intCast]
  norm_num

theorem roundTo_four_sub_one (x : ℚ) :
    roundTo 4 (x - 1) = roundTo 4 x - 1 := by
  unfold roundTo
  have h : (x - 1) * 10 ^ 4 = x * 10 ^ 4 + ((-10000 : ℤ) : ℚ) := by
    push_cast; ring
  rw [h, rhe_add_int_even _ _ (by norm_num)]
  push_cast
  ring

/-- The identity behind claim C1: rounding the spread of the raw close equals
rounding the difference of the already-rounded fields. -/
theorem roundTo_spread_eq (x : ℚ) :
    roundTo 4 (x - 1) = roundTo 4 (roundTo 4 x - roundTo 4 1) := by
  rw [roundTo_four_one, roundTo_four_sub_one, roundTo_four_sub_one,
    roundTo_idem]

/-! ## Facts about `sortByDate` -/

theorem sortByDate_perm {α : Type} (key : α → String) (l : List α) :
    List.Perm (sortByDate key l) l :=
  List.perm_insertionSort _ l

theorem sortByDate_pairwise_lt {α : Type} (key : α → String) (l : List α)
    (h : (l.map key).Nodup) :
    (sortByDate key l).Pairwise (fun a b => key a < key b) := by
  haveI : IsTotal α (fun a b => key a ≤ key b) := ⟨fun a b => le_total _ _⟩
  haveI : IsTrans α (fun a b => key a ≤ key b) :=
    ⟨fun _ _ _ hab hbc => le_trans hab hbc⟩
  have hsorted : (sortByDate key l).Pairwise (fun a b => key a ≤ key b) :=
    List.sorted_insertionSort _ l
  have hperm : List.Perm (sortByDate key l) l := sortByDate_perm key l
  have hnd : ((sortByDate key l).map key).Nodup :=
    ((hperm.map key).nodup_iff).mpr h
  have hne : (sortByDate key l).Pairwise (fun a b => key a ≠ key b) :=
    List.pairwise_map.mp hnd
  exact (hsorted.and hne).imp fun hab => lt_of_le_of_ne hab.1 hab.2

/-! ## Inversion lemmas for the fetch helper and the handlers -/

theorem fetch_ticker_data_ok {provider : Provider} {t period : String}
    {bars : List Bar} :
    fetch_ticker_data provider t period = Except.ok bars ↔
      provider t period = Except.ok bars ∧ bars ≠ [] := by
  unfold fetch_ticker_data
  cases hp : provider t period with
  | error e => simp
  | ok hist =>
      cases hist with
      | nil => simp
      | cons b l =>
          dsimp only
          rw [if_neg (by simp)]
          constructor
          · intro h
            have hb : b :: l = bars := by injection h
            exact ⟨h, by rw [← hb]; simp⟩
          · rintro ⟨h, _⟩
            exact h

theorem fetch_ticker_data_error {provider : Provider} {t period m : String} :
    fetch_ticker_data provider t period = Except.error m ↔
      (provider t period = Except.error m ∨
        (provider t period = Except.ok [] ∧ m = "No data for " ++ t)) := by
  unfold fetch_ticker_data
  cases hp : provider t period with
  | error e => simp [eq_comm]
  | ok hist =>
      cases hist with
      | nil => simp [eq_comm]
      | cons b l =>
          dsimp only
          rw [if_neg (by simp)]
          simp

theorem get_bond_spread_ok {provider : Provider} {period : String}
    {r : BondSpreadResponse} :
    get_bond_spread provider period = Except.ok r ↔
      ∃ us_data, fetch_ticker_data provider "^TNX" period = Except.ok us_data ∧
        r = ⟨true, sortByDate SpreadRow.date (us_data.map (spreadRowOf 1)),
          period, (us_data.map (spreadRowOf 1)).length⟩ := by
  unfold get_bond_spread
  rw [TICKERS_us10y]
  cases hf : fetch_ticker_data provider "^TNX" period with
  | error e => simp
  | ok us_data =>
      dsimp only
      constructor
      · intro h
        injection h with h'
        exact ⟨us_data, rfl, h'.symm⟩
      · rintro ⟨us', h1, h2⟩
        have h1' : us_data = us' := by injection h1
        rw [h2, ← h1']

theorem get_bond_spread_error {provider : Provider} {period : String}
    {e : HTTPError} :
    get_bond_spread provider period = Except.error e ↔
      ∃ m, fetch_ticker_data provider "^TNX" period = Except.error m ∧
        e = ⟨500, m⟩ := by
  unfold get_bond_spread
  rw [TICKERS_us10y]
  cases hf : fetch_ticker_data provider "^TNX" period with
  | error m => simp [eq_comm]
  | ok us_data => simp

theorem get_fx_rate_ok {provider : Provider} {period : String}
    {r : FxResponse} :
    get_fx_rate provider period = Except.ok r ↔
      ∃ hist, fetch_ticker_data provider "JPY=X" period = Except.ok hist ∧
        r = ⟨true, sortByDate FxRow.date (hist.map fxRowOf), "USD/JPY",
          period⟩ := by
  unfold get_fx_rate
  rw [TICKERS_jpy_fx]
  cases hf : fetch_ticker_data provider "JPY=X" period with
  | error e => simp
  | ok hist =>
      dsimp only
      constructor
      · intro h
        injection h with h'
        exact ⟨hist, rfl, h'.symm⟩
      · rintro ⟨hist', h1, h2⟩
        have h1' : hist = hist' := by injection h1
        rw [h2, ← h1']

theorem get_fx_rate_error {provider : Provider} {period : String}
    {e : HTTPError} :
    get_fx_rate provider period = Except.error e ↔
      ∃ m, fetch_ticker_data provider "JPY=X" period = Except.error m ∧
        e = ⟨500, m⟩ := by
  unfold get_fx_rate
  rw [TICKERS_jpy_fx]
  cases hf : fetch_ticker_data provider "JPY=X" period with
  | error m => simp [eq_comm]
  | ok hist => simp

theorem get_commodities_eq (provider : Provider) (period : String) :
    get_commodities provider period = Except.ok
      ⟨true,
        ⟨match fetch_ticker_data provider "GC=F" period with
          | .error _ => []
          | .ok gold_hist =>
              sortByDate CommodityRow.date (gold_hist.map commodityRowOf),
         match fetch_ticker_data provider "CL=F" period with
          | .error _ => []
          | .ok oil_hist =>
              sortByDate CommodityRow.date (oil_hist.map commodityRowOf)⟩,
        period⟩ := rfl

/-! ## Concrete sample providers used to instantiate the theorems -/

/-- A sample `^TNX` daily bar. -/
def sampleUsBar : Bar := ⟨"2024-01-02", 4, 41 / 10, 39 / 10, 405 / 100⟩

/-- A sample `JPY=X` daily bar. -/
def sampleFxBar : Bar := ⟨"2024-01-02", 148, 149, 295 / 2, 297 / 2⟩

/-- A sample `GC=F` daily bar. -/
def sampleGoldBar : Bar := ⟨"2024-01-02", 2050, 2060, 2040, 20555 / 10⟩

/-- A sample `CL=F` daily bar. -/
def sampleOilBar : Bar := ⟨"2024-01-02", 70, 71, 139 / 2, 705 / 10⟩

/-- A provider that answers every ticker of the table with one bar. -/
def sampleProvider : Provider := fun t _ =>
  if t = "^TNX" then Except.ok [sampleUsBar]
  else if t = "JPY=X" then Except.ok [sampleFxBar]
  else if t = "GC=F" then Except.ok [sampleGoldBar]
  else if t = "CL=F" then Except.ok [sampleOilBar]
  else Except.error "unknown ticker"

/-- Like `sampleProvider` but with the gold fetch failing. -/
def sampleProviderGoldDown : Provider := fun t p =>
  if t = "GC=F" then Except.error "HTTP Error 404" else sampleProvider t p

/-- Like `sampleProvider` but with both commodity fetches failing. -/
def sampleProviderCommoditiesDown : Provider := fun t p =>
  if t = "GC=F" then Except.error "HTTP Error 404"
  else if t = "CL=F" then Except.error "HTTP Error 503"
  else sampleProvider t p

/-- Like `sampleProvider` but with the FX fetch failing. -/
def sampleProviderFxDown : Provider := fun t p =>
  if t = "JPY=X" then Except.error "rate limited" else sampleProvider t p

/-- A provider that answers every ticker with an empty history. -/
def emptyProvider : Provider := fun _ _ => Except.ok []

/-! ## The claims -/

/-- C1: for every row returned by `/api/bond-spread`, the `spread` field
equals `round(us10y - jp10y, 4)` exactly, where `us10y` and `jp10y` are the
row's own 4-decimal-rounded fields. -/
theorem spread_eq_round_of_rounded_fields (provider : Provider)
    (period : String) (r : BondSpreadResponse)
    (h : get_bond_spread provider period = Except.ok r) :
    ∀ row ∈ r.data, row.spread = roundTo 4 (row.us10y - row.jp10y) := by
  obtain ⟨us_data, hf, rfl⟩ := get_bond_spread_ok.mp h
  intro row hrow
  have hrow' : row ∈ us_data.map (spreadRowOf 1) :=
    (List.Perm.mem_iff (sortByDate_perm _ _)).mp hrow
  obtain ⟨bar, _, rfl⟩ := List.mem_map.mp hrow'
  simpa [spreadRowOf] using roundTo_spread_eq bar.close

theorem spread_eq_round_of_rounded_fields_witness :
    ∃ r, get_bond_spread sampleProvider "5d" = Except.ok r ∧
      (spreadRowOf 1 sampleUsBar) ∈ r.data ∧
      (spreadRowOf 1 sampleUsBar).spread =
        roundTo 4 ((spreadRowOf 1 sampleUsBar).us10y -
          (spreadRowOf 1 sampleUsBar).jp10y) := by
  refine ⟨_, rfl, ?_, ?_⟩
  · exact (List.Perm.mem_iff (sortByDate_perm _ _)).mpr
      (List.mem_map_of_mem _ (List.mem_singleton_self _))
  · exact spread_eq_round_of_rounded_fields sampleProvider "5d" _ rfl _
      ((List.Perm.mem_iff (sortByDate_perm _ _)).mpr
        (List.mem_map_of_mem _ (List.mem_singleton_self _)))

/-- A provider that differs from `sampleProvider` outside `^TNX`. -/
def sampleProviderAlt : Provider := fun t p =>
  if t = "GC=F" then Except.error "provider down" else sampleProvider t p

/-- C9: every `/api/bond-spread` row carries `jp10y = 1.0`; the spread is
`round(raw_us_close - 1.0, 4)`; and the handler's result depends only on the
provider's `^TNX` answer (the Japanese yield is never fetched). -/
theorem jp10y_constant_never_fetched (provider : Provider) (period : String) :
    (∀ r, get_bond_spread provider period = Except.ok r → ∀ row ∈ r.data,
      row.jp10y = 1 ∧ ∃ bars bar, provider "^TNX" period = Except.ok bars ∧
        bar ∈ bars ∧ row.us10y = roundTo 4 bar.close ∧
        row.spread = roundTo 4 (bar.close - 1)) ∧
    (∀ provider2 : Provider,
      provider "^TNX" period = provider2 "^TNX" period →
      get_bond_spread provider period = get_bond_spread provider2 period) := by
  constructor
  · intro r h row hrow
    obtain ⟨us_data, hf, rfl⟩ := get_bond_spread_ok.mp h
    obtain ⟨hp, -⟩ := fetch_ticker_data_ok.mp hf
    have hrow' : row ∈ us_data.map (spreadRowOf 1) :=
      (List.Perm.mem_iff (sortByDate_perm _ _)).mp hrow
    obtain ⟨bar, hbar, rfl⟩ := List.mem_map.mp hrow'
    refine ⟨by simpa [spreadRowOf] using roundTo_four_one,
      us_data, bar, hp, hbar, rfl, rfl⟩
  · intro provider2 h
    unfold get_bond_spread fetch_ticker_data
    rw [TICKERS_us10y, h]

theorem jp10y_constant_never_fetched_witness :
    (∃ r, get_bond_spread sampleProvider "5d" = Except.ok r ∧
      (spreadRowOf 1 sampleUsBar) ∈ r.data ∧
      (spreadRowOf 1 sampleUsBar).jp10y = 1 ∧
      ∃ bars bar, sampleProvider "^TNX" "5d" = Except.ok bars ∧ bar ∈ bars ∧
        (spreadRowOf 1 sampleUsBar).us10y = roundTo 4 bar.close ∧
        (spreadRowOf 1 sampleUsBar).spread = roundTo 4 (bar.close - 1)) ∧
    get_bond_spread sampleProvider "5d" =
      get_bond_spread sampleProviderAlt "5d" := by
  constructor
  · refine ⟨_, rfl, ?_, ?_⟩
    · exact (List.Perm.mem_iff (sortByDate_perm _ _)).mpr
        (List.mem_map_of_mem _ (List.mem_singleton_self _))
    · exact (jp10y_constant_never_fetched sampleProvider "5d").1 _ rfl _
        ((List.Perm.mem_iff (sortByDate_perm _ _)).mpr
          (List.mem_map_of_mem _ (List.mem_singleton_self _)))
  · exact (jp10y_constant_never_fetched sampleProvider "5d").2
      sampleProviderAlt rfl

/-- Shaping a bar list with a date-preserving formatter and then sorting by
date yields a strictly ascending sequence whenever the bars' dates are
pairwise distinct. -/
theorem pairwise_lt_of_mapped {α : Type} (key : α → String) (f : Bar → α)
    (hpres : ∀ b, key (f b) = b.date) (bars : List Bar)
    (h : (bars.map Bar.date).Nodup) :
    (sortByDate key (bars.map f)).Pairwise (fun a b => key a < key b) := by
  apply sortByDate_pairwise_lt
  rw [List.map_map]
  have hc : (key ∘ f) = Bar.date := funext hpres
  rw [hc]
  exact h

/-- C2: for every period and endpoint output series, the rows in `data` are
strictly ordered by ascending date string with no duplicate dates, given the
provider contract that a history has pairwise-distinct daily dates. -/
theorem output_rows_strictly_sorted (provider : Provider) (period : String)
    (hnd : ∀ t rows, provider t period = Except.ok rows →
      (rows.map Bar.date).Nodup) :
    (∀ r, get_bond_spread provider period = Except.ok r →
      r.data.Pairwise (fun a b => a.date < b.date)) ∧
    (∀ r, get_fx_rate provider period = Except.ok r →
      r.data.Pairwise (fun a b => a.date < b.date)) ∧
    (∀ r, get_commodities provider period = Except.ok r →
      r.data.gold.Pairwise (fun a b => a.date < b.date) ∧
      r.data.oil.Pairwise (fun a b => a.date < b.date)) := by
  refine ⟨?_, ?_, ?_⟩
  · intro r h
    obtain ⟨us_data, hf, rfl⟩ := get_bond_spread_ok.mp h
    obtain ⟨hp, -⟩ := fetch_ticker_data_ok.mp hf
    exact pairwise_lt_of_mapped SpreadRow.date (spreadRowOf 1) (fun b => rfl)
      us_data (hnd _ _ hp)
  · intro r h
    obtain ⟨hist, hf, rfl⟩ := get_fx_rate_ok.mp h
    obtain ⟨hp, -⟩ := fetch_ticker_data_ok.mp hf
    exact pairwise_lt_of_mapped FxRow.date fxRowOf (fun b => rfl)
      hist (hnd _ _ hp)
  · intro r h
    rw [get_commodities_eq provider period] at h
    injection h with h'
    subst h'
    constructor
    · cases hg : fetch_ticker_data provider "GC=F" period with
      | error m => simp [hg]
      | ok bars =>
          obtain ⟨hp, -⟩ := fetch_ticker_data_ok.mp hg
          simpa [hg] using pairwise_lt_of_mapped CommodityRow.date
            commodityRowOf (fun b => rfl) bars (hnd _ _ hp)
    · cases ho : fetch_ticker_data provider "CL=F" period with
      | error m => simp [ho]
      | ok bars =>
          obtain ⟨hp, -⟩ := fetch_ticker_data_ok.mp ho
          simpa [ho] using pairwise_lt_of_mapped CommodityRow.date
            commodityRowOf (fun b => rfl) bars (hnd _ _ hp)

theorem output_rows_strictly_sorted_witness :
    (∀ t rows, sampleProvider t "5d" = Except.ok rows →
      (rows.map Bar.date).Nodup) ∧
    (∃ r, get_bond_spread sampleProvider "5d" = Except.ok r ∧
      r.data.Pairwise (fun a b => a.date < b.date)) ∧
    (∃ r, get_fx_rate sampleProvider "5d" = Except.ok r ∧
      r.data.Pairwise (fun a b => a.date < b.date)) ∧
    (∃ r, get_commodities sampleProvider "5d" = Except.ok r ∧
      r.data.gold.Pairwise (fun a b => a.date < b.date) ∧
      r.data.oil.Pairwise (fun a b => a.date < b.date)) := by
  have hnd : ∀ t rows, sampleProvider t "5d" = Except.ok rows →
      (rows.map Bar.date).Nodup := by
    intro t rows h
    unfold sampleProvider at h
    split_ifs at h <;> (injection h with h'; subst h'; simp)
  refine ⟨hnd, ?_, ?_, ?_⟩
  · exact ⟨_, rfl, (output_rows_strictly_sorted sampleProvider "5d" hnd).1
      _ rfl⟩
  · exact ⟨_, rfl, (output_rows_strictly_sorted sampleProvider "5d" hnd).2.1
      _ rfl⟩
  · exact ⟨_, rfl, (output_rows_strictly_sorted sampleProvider "5d" hnd).2.2
      _ rfl⟩

/-- A ticker whose provider answer is empty-or-error makes
`fetch_ticker_data` raise. -/
theorem fetch_fails_of_empty {provider : Provider} {t period : String}
    (h : ∀ rows, provider t period = Except.ok rows → rows = []) :
    ∃ m, fetch_ticker_data provider t period = Except.error m := by
  cases hp : provider t period with
  | error e => exact ⟨e, fetch_ticker_data_error.mpr (Or.inl hp)⟩
  | ok rows =>
      have hrows := h rows hp
      subst hrows
      exact ⟨_, fetch_ticker_data_error.mpr (Or.inr ⟨hp, rfl⟩)⟩

/-- C3: if the gold fetch fails (raises or returns empty) while the oil fetch
succeeds, `/api/commodities` still returns `success: true` with
`data.gold = []` and `data.oil` populated from the oil series. -/
theorem commodities_gold_failure_isolated (provider : Provider)
    (period : String) (bars : List Bar)
    (hgold : ∀ rows, provider "GC=F" period = Except.ok rows → rows = [])
    (hoil : provider "CL=F" period = Except.ok bars) (hne : bars ≠ []) :
    get_commodities provider period = Except.ok
      ⟨true, ⟨[], sortByDate CommodityRow.date (bars.map commodityRowOf)⟩,
        period⟩ ∧
    sortByDate CommodityRow.date (bars.map commodityRowOf) ≠ [] := by
  obtain ⟨m, hfg⟩ := fetch_fails_of_empty hgold
  have hfo : fetch_ticker_data provider "CL=F" period = Except.ok bars :=
    fetch_ticker_data_ok.mpr ⟨hoil, hne⟩
  constructor
  · rw [get_commodities_eq provider period, hfg, hfo]
  · intro hc
    have hlen :=
      (sortByDate_perm CommodityRow.date (bars.map commodityRowOf)).length_eq
    rw [hc] at hlen
    simp at hlen
    exact hne (List.length_eq_zero.mp hlen.symm)

theorem commodities_gold_failure_isolated_witness :
    get_commodities sampleProviderGoldDown "5d" = Except.ok
      ⟨true,
        ⟨[], sortByDate CommodityRow.date ([sampleOilBar].map commodityRowOf)⟩,
        "5d"⟩ ∧
    sortByDate CommodityRow.date ([sampleOilBar].map commodityRowOf) ≠ [] :=
  commodities_gold_failure_isolated sampleProviderGoldDown "5d" [sampleOilBar]
    (fun rows h => by injection h) rfl (List.cons_ne_nil _ _)

/-- C10: `/api/commodities` never yields an error envelope for upstream fetch
failures: it always succeeds, and when both the gold and the oil fetches fail
it returns `success: true` with `data.gold = []` and `data.oil = []`. -/
theorem commodities_never_error (provider : Provider) (period : String) :
    (∃ r, get_commodities provider period = Except.ok r ∧
      r.success = true) ∧
    ((∀ rows, provider "GC=F" period = Except.ok rows → rows = []) →
      (∀ rows, provider "CL=F" period = Except.ok rows → rows = []) →
      get_commodities provider period =
        Except.ok ⟨true, ⟨[], []⟩, period⟩) := by
  constructor
  · exact ⟨_, get_commodities_eq provider period, rfl⟩
  · intro hg ho
    obtain ⟨mg, hfg⟩ := fetch_fails_of_empty hg
    obtain ⟨mo, hfo⟩ := fetch_fails_of_empty ho
    rw [get_commodities_eq provider period, hfg, hfo]

theorem commodities_never_error_witness :
    (∃ r, get_commodities sampleProviderCommoditiesDown "5d" = Except.ok r ∧
      r.success = true) ∧
    get_commodities sampleProviderCommoditiesDown "5d" =
      Except.ok ⟨true, ⟨[], []⟩, "5d"⟩ :=
  ⟨(commodities_never_error sampleProviderCommoditiesDown "5d").1,
    (commodities_never_error sampleProviderCommoditiesDown "5d").2
      (fun rows h => by injection h) (fun rows h => by injection h)⟩

/-- C5: every row of the gold and oil lists of `/api/commodities` carries
`price = round(close, 2)` and `change = round(close - open, 2)` of its
provider bar. -/
theorem commodity_fields_rounded (provider : Provider) (period : String)
    (r : CommoditiesResponse)
    (h : get_commodities provider period = Except.ok r) :
    (∀ row ∈ r.data.gold, ∃ bars bar,
      provider "GC=F" period = Except.ok bars ∧ bar ∈ bars ∧
      row.price = roundTo 2 bar.close ∧
      row.change = roundTo 2 (bar.close - bar.«open»)) ∧
    (∀ row ∈ r.data.oil, ∃ bars bar,
      provider "CL=F" period = Except.ok bars ∧ bar ∈ bars ∧
      row.price = roundTo 2 bar.close ∧
      row.change = roundTo 2 (bar.close - bar.«open»)) := by
  rw [get_commodities_eq provider period] at h
  injection h with h'
  subst h'
  constructor
  · intro row hrow
    cases hg : fetch_ticker_data provider "GC=F" period with
    | error m => simp [hg] at hrow
    | ok bars =>
        simp only [hg] at hrow
        obtain ⟨hp, -⟩ := fetch_ticker_data_ok.mp hg
        have hrow' : row ∈ bars.map commodityRowOf :=
          (List.Perm.mem_iff (sortByDate_perm _ _)).mp hrow
        obtain ⟨bar, hbar, rfl⟩ := List.mem_map.mp hrow'
        exact ⟨bars, bar, hp, hbar, rfl, rfl⟩
  · intro row hrow
    cases ho : fetch_ticker_data provider "CL=F" period with
    | error m => simp [ho] at hrow
    | ok bars =>
        simp only [ho] at hrow
        obtain ⟨hp, -⟩ := fetch_ticker_data_ok.mp ho
        have hrow' : row ∈ bars.map commodityRowOf :=
          (List.Perm.mem_iff (sortByDate_perm _ _)).mp hrow
        obtain ⟨bar, hbar, rfl⟩ := List.mem_map.mp hrow'
        exact ⟨bars, bar, hp, hbar, rfl, rfl⟩

theorem commodity_fields_rounded_witness :
    ∃ r, get_commodities sampleProvider "5d" = Except.ok r ∧
      commodityRowOf sampleGoldBar ∈ r.data.gold ∧
      commodityRowOf sampleOilBar ∈ r.data.oil ∧
      (∃ bars bar, sampleProvider "GC=F" "5d" = Except.ok bars ∧ bar ∈ bars ∧
        (commodityRowOf sampleGoldBar).price = roundTo 2 bar.close ∧
        (commodityRowOf sampleGoldBar).change =
          roundTo 2 (bar.close - bar.«open»)) ∧
      (∃ bars bar, sampleProvider "CL=F" "5d" = Except.ok bars ∧ bar ∈ bars ∧
        (commodityRowOf sampleOilBar).price = roundTo 2 bar.close ∧
        (commodityRowOf sampleOilBar).change =
          roundTo 2 (bar.close - bar.«open»)) := by
  refine ⟨_, rfl, ?_, ?_, ?_, ?_⟩
  · exact (List.Perm.mem_iff (sortByDate_perm _ _)).mpr
      (List.mem_map_of_mem _ (List.mem_singleton_self _))
  · exact (List.Perm.mem_iff (sortByDate_perm _ _)).mpr
      (List.mem_map_of_mem _ (List.mem_singleton_self _))
  · exact (commodity_fields_rounded sampleProvider "5d" _ rfl).1 _
      ((List.Perm.mem_iff (sortByDate_perm _ _)).mpr
        (List.mem_map_of_mem _ (List.mem_singleton_self _)))
  · exact (commodity_fields_rounded sampleProvider "5d" _ rfl).2 _
      ((List.Perm.mem_iff (sortByDate_perm _ _)).mpr
        (List.mem_map_of_mem _ (List.mem_singleton_self _)))

/-- C4: if the bond-spread sub-pipeline fails (its fetch raises or returns
empty), `/api/all` aborts the whole request with a 500 error and returns no
partial envelope. -/
theorem all_aborts_on_bond_spread_failure (provider : Provider)
    (period : String)
    (hb : ∀ rows, provider "^TNX" period = Except.ok rows → rows = []) :
    ∃ d, get_all_data provider period = Except.error ⟨500, d⟩ := by
  obtain ⟨m, hf⟩ := fetch_fails_of_empty hb
  have hbs : get_bond_spread provider period = Except.error ⟨500, m⟩ :=
    get_bond_spread_error.mpr ⟨m, hf, rfl⟩
  refine ⟨httpErrorStr ⟨500, m⟩, ?_⟩
  unfold get_all_data
  rw [hbs]

theorem all_aborts_on_bond_spread_failure_witness :
    ∃ d, get_all_data emptyProvider "5d" = Except.error ⟨500, d⟩ :=
  all_aborts_on_bond_spread_failure emptyProvider "5d"
    (fun rows h => by injection h with h'; exact h'.symm)

/-- C6: if the `JPY=X` fetch fails entirely (provider error with a non-empty
exception message, or zero rows), `/api/fx` returns a 500 response with a
non-empty `detail` message. -/
theorem fx_failure_500_nonempty_detail (provider : Provider)
    (period : String)
    (h : (∃ m, m ≠ "" ∧ provider "JPY=X" period = Except.error m) ∨
      provider "JPY=X" period = Except.ok []) :
    ∃ e, get_fx_rate provider period = Except.error e ∧ e.status = 500 ∧
      e.detail ≠ "" := by
  rcases h with ⟨m, hm, hp⟩ | hp
  · exact ⟨⟨500, m⟩, get_fx_rate_error.mpr
      ⟨m, fetch_ticker_data_error.mpr (Or.inl hp), rfl⟩, rfl, hm⟩
  · exact ⟨⟨500, "No data for JPY=X"⟩, get_fx_rate_error.mpr
      ⟨_, fetch_ticker_data_error.mpr (Or.inr ⟨hp, rfl⟩), rfl⟩, rfl,
      by decide⟩

theorem fx_failure_500_nonempty_detail_witness :
    ∃ e, get_fx_rate sampleProviderFxDown "5d" = Except.error e ∧
      e.status = 500 ∧ e.detail ≠ "" :=
  fx_failure_500_nonempty_detail sampleProviderFxDown "5d"
    (Or.inl ⟨"rate limited", by decide, rfl⟩)

/-- C7: an empty provider history for the required ticker of a single-ticker
endpoint surfaces as a 500 error whose message is exactly
`"No data for <ticker>"`. -/
theorem empty_history_no_data_message (provider : Provider)
    (period : String) :
    (provider "JPY=X" period = Except.ok [] →
      get_fx_rate provider period =
        Except.error ⟨500, "No data for JPY=X"⟩) ∧
    (provider "^TNX" period = Except.ok [] →
      get_bond_spread provider period =
        Except.error ⟨500, "No data for ^TNX"⟩) := by
  constructor
  · intro hp
    exact get_fx_rate_error.mpr
      ⟨_, fetch_ticker_data_error.mpr (Or.inr ⟨hp, rfl⟩), rfl⟩
  · intro hp
    exact get_bond_spread_error.mpr
      ⟨_, fetch_ticker_data_error.mpr (Or.inr ⟨hp, rfl⟩), rfl⟩

theorem empty_history_no_data_message_witness :
    get_fx_rate emptyProvider "5d" =
      Except.error ⟨500, "No data for JPY=X"⟩ ∧
    get_bond_spread emptyProvider "5d" =
      Except.error ⟨500, "No data for ^TNX"⟩ :=
  ⟨(empty_history_no_data_message emptyProvider "5d").1 rfl,
    (empty_history_no_data_message emptyProvider "5d").2 rfl⟩

/-- C8: on success, the `data` field of `/api/all` is the merge, under the
keys `bondSpread`, `fx` and `commodities`, of the `data` fields the three
sub-handlers return for the same period and provider. -/
theorem all_data_merges_subhandlers (provider : Provider) (period : String)
    (r : AllResponse) (h : get_all_data provider period = Except.ok r) :
    ∃ b f c, get_bond_spread provider period = Except.ok b ∧
      get_fx_rate provider period = Except.ok f ∧
      get_commodities provider period = Except.ok c ∧
      r.data = ⟨b.data, f.data, c.data⟩ := by
  unfold get_all_data at h
  cases hb : get_bond_spread provider period with
  | error e => rw [hb] at h; exact Except.noConfusion h
  | ok b =>
      rw [hb] at h
      dsimp only at h
      cases hf : get_fx_rate provider period with
      | error e => rw [hf] at h; exact Except.noConfusion h
      | ok f =>
          rw [hf] at h
          dsimp only at h
          cases hc : get_commodities provider period with
          | error e => rw [hc] at h; exact Except.noConfusion h
          | ok c =>
              rw [hc] at h
              dsimp only at h
              injection h with h'
              subst h'
              exact ⟨b, f, c, rfl, rfl, rfl, rfl⟩

theorem all_data_merges_subhandlers_witness :
    ∃ r, get_all_data sampleProvider "5d" = Except.ok r ∧
      ∃ b f c, get_bond_spread sampleProvider "5d" = Except.ok b ∧
        get_fx_rate sampleProvider "5d" = Except.ok f ∧
        get_commodities sampleProvider "5d" = Except.ok c ∧
        r.data = ⟨b.data, f.data, c.data⟩ :=
  ⟨_, rfl, all_data_merges_subhandlers sampleProvider "5d" _ rfl⟩
